import Mathlib

/-!
Verification of the entitlement and viewing-state engine of the streaming
application: the data model follows src/shared/schema.ts, the storage
operations follow the DatabaseStorage class (src/unnamed/part_000), and the
route-level behaviour follows src/server/routes.ts.  Timestamps are modelled
as natural numbers (days); SQL tables are modelled as lists of rows, with an
UPDATE ... WHERE clause modelled as a conditional map over the list and the
serial primary keys modelled as explicit counters.
-/

namespace StreamFlow

/-! ## Data model (src/shared/schema.ts) -/

/-- Users table (schema.ts lines 7-20).  The password column is irrelevant to
every claim and is omitted; the entitlement engine only ever mutates isVip and
vipExpiresAt. -/
structure User where
  id : Nat
  username : String
  email : String
  isAdmin : Bool
  isVip : Bool
  vipExpiresAt : Option Nat
  preferredQuality : String
  language : String
  deriving Repr, DecidableEq

/-- Subscription plans table (schema.ts lines 23-32). -/
structure SubscriptionPlan where
  id : Nat
  name : String
  price : Nat
  duration : Nat
  quality : String
  description : String
  deriving Repr, DecidableEq

/-- Subscriptions table (schema.ts lines 35-44). -/
structure Subscription where
  id : Nat
  userId : Nat
  planId : Nat
  startDate : Nat
  endDate : Nat
  isActive : Bool
  autoRenew : Bool
  deriving Repr, DecidableEq

/-- Payment status column: the schema comment enumerates the values
"pending", "completed", "failed", "refunded" (schema.ts line 55). -/
inductive PayStatus where
  | pending
  | completed
  | failed
  | refunded
  deriving Repr, DecidableEq

/-- Payments table (schema.ts lines 47-58).  The jsonb paymentDetails blob is
never read by the engine and is omitted.  Note the table has no updatedAt
column. -/
structure Payment where
  id : Nat
  userId : Nat
  subscriptionId : Option Nat
  amount : Nat
  currency : String
  paymentMethod : String
  status : PayStatus
  transactionId : Option String
  timestamp : Nat
  deriving Repr, DecidableEq

/-- Content type column, "movie" or "series" (schema.ts line 99). -/
inductive ContentType where
  | movie
  | series
  deriving Repr, DecidableEq

/-- Content table, with the fields produced by mapContentFromDb
(src/unnamed/part_000 lines 477-500).  The jsonb cast blob is modelled as an
uninterpreted optional string. -/
structure Content where
  id : Nat
  title : String
  description : String
  type : ContentType
  releaseYear : Nat
  genres : List String
  posterUrl : String
  backdropUrl : String
  rating : Option Int
  duration : Option Int
  trailerUrl : Option String
  isExclusive : Bool
  isNew : Bool
  seasons : Option Int
  videoUrl : Option String
  castInfo : Option String
  director : Option String
  studio : Option String
  maturityRating : Option String
  deriving Repr, DecidableEq

/-- Progress table (schema.ts lines 124-133). -/
structure ProgressRecord where
  id : Nat
  userId : Nat
  contentId : Nat
  progress : Int
  timestamp : Nat
  currentEpisode : Option Int
  currentSeason : Option Int
  timeRemaining : Option Int
  deriving Repr, DecidableEq

/-- Favorites table (schema.ts lines 147-153); the primary key is the pair
(userId, contentId). -/
structure Favorite where
  userId : Nat
  contentId : Nat
  addedAt : Nat
  deriving Repr, DecidableEq

/-- The persistent store: one list of rows per table, plus the next value of
each serial primary-key sequence. -/
structure DB where
  users : List User
  plans : List SubscriptionPlan
  subscriptions : List Subscription
  payments : List Payment
  progressRecords : List ProgressRecord
  favorites : List Favorite
  nextSubscriptionId : Nat
  nextPaymentId : Nat
  nextProgressId : Nat
  deriving Repr, DecidableEq

/-! ## UPDATE ... WHERE as a conditional map, with its lemma kit -/

/-- Apply g to every row satisfying f, leaving the other rows in place: the
semantics of an UPDATE ... WHERE statement on a table. -/
def updateWhere {α : Type} (f : α → Bool) (g : α → α) : List α → List α
  | [] => []
  | x :: xs => (if f x then g x else x) :: updateWhere f g xs

theorem updateWhere_append {α : Type} (f : α → Bool) (g : α → α) (l1 l2 : List α) :
    updateWhere f g (l1 ++ l2) = updateWhere f g l1 ++ updateWhere f g l2 := by
  induction l1 with
  | nil => rfl
  | cons x xs ih => simp [updateWhere, ih]

theorem updateWhere_eq_self {α : Type} {f : α → Bool} {g : α → α} {l : List α}
    (h : ∀ x ∈ l, f x = false) : updateWhere f g l = l := by
  induction l with
  | nil => rfl
  | cons x xs ih =>
      have hx := h x (List.mem_cons_self x xs)
      simp [updateWhere, hx, ih fun y hy => h y (List.mem_cons_of_mem x hy)]

theorem updateWhere_idem {α : Type} {f : α → Bool} {g : α → α}
    (hf : ∀ x, f (g x) = f x) (hg : ∀ x, f x = true → g (g x) = g x) (l : List α) :
    updateWhere f g (updateWhere f g l) = updateWhere f g l := by
  induction l with
  | nil => rfl
  | cons x xs ih =>
      by_cases hx : f x = true
      · simp [updateWhere, hx, hf, hg x hx, ih]
      · simp only [Bool.not_eq_true] at hx
        simp [updateWhere, hx, ih]

theorem find?_updateWhere {α : Type} {f : α → Bool} {g : α → α} {q : α → Bool}
    (hq : ∀ x, q (g x) = q x) (l : List α) :
    (updateWhere f g l).find? q = Option.map (fun x => if f x then g x else x) (l.find? q) := by
  induction l with
  | nil => rfl
  | cons x xs ih =>
      by_cases hqx : q x = true
      · by_cases hfx : f x = true <;>
          simp [updateWhere, List.find?, hfx, hqx, hq]
      · simp only [Bool.not_eq_true] at hqx
        by_cases hfx : f x = true <;>
          simp [updateWhere, List.find?, hfx, hqx, hq, ih]

theorem find?_eq_none_of_all {α : Type} {q : α → Bool} {l : List α}
    (h : ∀ x ∈ l, q x = false) : l.find? q = none := by
  induction l with
  | nil => rfl
  | cons x xs ih =>
      have hx := h x (List.mem_cons_self x xs)
      simp [List.find?, hx, ih fun y hy => h y (List.mem_cons_of_mem x hy)]

theorem find?_append_of_all_false {α : Type} {q : α → Bool} {l1 : List α}
    (h : ∀ x ∈ l1, q x = false) (l2 : List α) : (l1 ++ l2).find? q = l2.find? q := by
  induction l1 with
  | nil => rfl
  | cons x xs ih =>
      have hx := h x (List.mem_cons_self x xs)
      simp [List.find?, hx, ih fun y hy => h y (List.mem_cons_of_mem x hy)]

theorem all_false_of_filter_eq_nil {α : Type} {q : α → Bool} {l : List α}
    (h : l.filter q = []) : ∀ x ∈ l, q x = false := by
  induction l with
  | nil => intro x hx; cases hx
  | cons x xs ih =>
      intro y hy
      by_cases hx : q x = true
      · simp [List.filter, hx] at h
      · simp only [Bool.not_eq_true] at hx
        simp only [List.filter, hx] at h
        rcases List.mem_cons.mp hy with hy | hy
        · subst hy; exact hx
        · exact ih h y hy

/-! ## Row lookups (SELECT ... WHERE id = ...) -/

def DB.findUser (db : DB) (id : Nat) : Option User :=
  db.users.find? (fun u => u.id == id)

def DB.findSubscription (db : DB) (id : Nat) : Option Subscription :=
  db.subscriptions.find? (fun s => s.id == id)

def DB.findPayment (db : DB) (id : Nat) : Option Payment :=
  db.payments.find? (fun p => p.id == id)

/-! ## Storage operations (DatabaseStorage, src/unnamed/part_000) -/

/-- DatabaseStorage.updateUserVipStatus (part_000 lines 76-85): sets isVip and
vipExpiresAt on the user row; an absent expiry date is stored as NULL
(vipExpiresAt || null). -/
def updateUserVipStatus (db : DB) (userId : Nat) (isVip : Bool)
    (vipExpiresAt : Option Nat) : DB :=
  { db with users := (updateWhere (fun u => u.id == userId)
      (fun u => { u with isVip := isVip, vipExpiresAt := vipExpiresAt }) db.users) }

/-- DatabaseStorage.cancelSubscription (part_000 lines 408-423): looks the
subscription up first; when found, sets isActive=false and autoRenew=false on
the subscription row and then removes VIP from the owning user.  When the id
is unknown the guard (if subscription) makes the whole call a no-op. -/
def cancelSubscription (db : DB) (id : Nat) : DB :=
  match db.subscriptions.find? (fun s => s.id == id) with
  | some subscription =>
      let db1 : DB := { db with subscriptions :=
        (updateWhere (fun s => s.id == id)
          (fun s => { s with isActive := false, autoRenew := false }) db.subscriptions) }
      updateUserVipStatus db1 subscription.userId false none
  | none => db

/-- DatabaseStorage.createSubscription (part_000 lines 377-392): inserts the
row (the serial column assigns nextSubscriptionId) and, only when the inserted
subscription is already active, grants VIP to the user until its endDate. -/
def createSubscription (db : DB) (userId planId startDate endDate : Nat)
    (isActive autoRenew : Bool) : DB × Subscription :=
  let sub : Subscription :=
    { id := db.nextSubscriptionId, userId := userId, planId := planId,
      startDate := startDate, endDate := endDate,
      isActive := isActive, autoRenew := autoRenew }
  let db1 : DB := { db with subscriptions := db.subscriptions ++ [sub],
                            nextSubscriptionId := db.nextSubscriptionId + 1 }
  if isActive then (updateUserVipStatus db1 userId true (some endDate), sub)
  else (db1, sub)

/-- DatabaseStorage.createPayment (part_000 lines 433-438): plain insert with
a serial id. -/
def createPayment (db : DB) (userId : Nat) (subscriptionId : Option Nat)
    (amount : Nat) (currency paymentMethod : String) (status : PayStatus)
    (transactionId : Option String) (timestamp : Nat) : DB × Payment :=
  let pay : Payment :=
    { id := db.nextPaymentId, userId := userId, subscriptionId := subscriptionId,
      amount := amount, currency := currency, paymentMethod := paymentMethod,
      status := status, transactionId := transactionId, timestamp := timestamp }
  ({ db with payments := db.payments ++ [pay],
             nextPaymentId := db.nextPaymentId + 1 }, pay)

/-- The row update performed by DatabaseStorage.updatePaymentStatus (part_000
lines 440-453): the status is always written; transactionId is written only
when the argument is truthy (a missing or empty string leaves the stored value
alone).  The update payload also carries an updatedAt key, but the payments
table in src/shared/schema.ts declares no such column, so the ORM's update has
nothing to map it to and the persisted row keeps exactly the schema's fields. -/
def applyPaymentUpdate (status : PayStatus) (transactionId : Option String)
    (p : Payment) : Payment :=
  match transactionId with
  | some t =>
      if t == "" then { p with status := status }
      else { p with status := status, transactionId := some t }
  | none => { p with status := status }

/-- DatabaseStorage.updatePaymentStatus (part_000 lines 440-474): updates the
payment row, re-reads it, and when the new status is completed and the payment
references a subscription, activates that subscription and grants VIP to the
payment's user until the subscription's endDate.  When the payment id matches
no row the source is left with an undefined row: the completed path then
dereferences it (a thrown TypeError) and the other path answers with an
undefined payment; both ends of that dead branch are modelled as none, and in
either case no further state was modified. -/
def updatePaymentStatus (db : DB) (id : Nat) (status : PayStatus)
    (transactionId : Option String) : Option DB :=
  let db1 : DB := { db with payments :=
    (updateWhere (fun p => p.id == id) (applyPaymentUpdate status transactionId) db.payments) }
  match db1.payments.find? (fun p => p.id == id) with
  | none => none
  | some updatedPayment =>
      if status == PayStatus.completed then
        match updatedPayment.subscriptionId with
        | some subId =>
            match db1.subscriptions.find? (fun s => s.id == subId) with
            | some subscription =>
                let db2 : DB := { db1 with subscriptions :=
                  (updateWhere (fun s => s.id == subId)
                    (fun s => { s with isActive := true }) db1.subscriptions) }
                some (updateUserVipStatus db2 updatedPayment.userId true
                  (some subscription.endDate))
            | none => some db1
        | none => some db1
      else some db1

/-- The insert payload of POST /api/progress: the body's fields plus the
session's userId.  Optional fields left undefined are dropped by the ORM's
update mapping, so on an update they keep the stored value. -/
structure InsertProgress where
  userId : Nat
  contentId : Nat
  progress : Int
  currentEpisode : Option Int
  currentSeason : Option Int
  timeRemaining : Option Int
  deriving Repr, DecidableEq

/-- The overwrite performed on an existing progress row by
DatabaseStorage.saveUserProgress: every provided field of the payload replaces
the stored one and timestamp is set to now; an optional field the payload does
not carry keeps the stored value. -/
def applyProgressUpdate (d : InsertProgress) (now : Nat) (r : ProgressRecord) : ProgressRecord :=
  { r with
    userId := d.userId, contentId := d.contentId, progress := d.progress,
    currentEpisode := (match d.currentEpisode with
      | some v => some v
      | none => r.currentEpisode),
    currentSeason := (match d.currentSeason with
      | some v => some v
      | none => r.currentSeason),
    timeRemaining := (match d.timeRemaining with
      | some v => some v
      | none => r.timeRemaining),
    timestamp := now }

/-- The row inserted by DatabaseStorage.saveUserProgress when no row for the
(userId, contentId) pair exists yet: payload fields, a fresh serial id and
timestamp=now. -/
def freshProgressRecord (db : DB) (d : InsertProgress) (now : Nat) : ProgressRecord :=
  { id := db.nextProgressId, userId := d.userId, contentId := d.contentId,
    progress := d.progress, timestamp := now,
    currentEpisode := d.currentEpisode, currentSeason := d.currentSeason,
    timeRemaining := d.timeRemaining }

/-- DatabaseStorage.saveUserProgress (part_000 lines 225-255): looks an
existing row up by (userId, contentId); when present, updates that row (keyed
by its serial id) with the payload and a fresh timestamp; otherwise inserts a
new row with a fresh timestamp. -/
def saveUserProgress (db : DB) (now : Nat) (d : InsertProgress) : DB :=
  match db.progressRecords.find?
      (fun r => r.userId == d.userId && r.contentId == d.contentId) with
  | some existing =>
      { db with progressRecords :=
        (updateWhere (fun r => r.id == existing.id) (applyProgressUpdate d now)
          db.progressRecords) }
  | none =>
      { db with
        progressRecords := db.progressRecords ++ [freshProgressRecord db d now],
        nextProgressId := db.nextProgressId + 1 }

/-- DatabaseStorage.addToFavorites (part_000 lines 276-293): checks for the
(userId, contentId) pair first and inserts with addedAt=now only when it is
absent; when the pair already exists, nothing is written. -/
def addToFavorites (db : DB) (now : Nat) (userId contentId : Nat) : DB :=
  match db.favorites.find?
      (fun f => f.userId == userId && f.contentId == contentId) with
  | some _ => db
  | none =>
      { db with favorites := db.favorites ++
          [{ userId := userId, contentId := contentId, addedAt := now }] }

/-- DatabaseStorage.removeFromFavorites (part_000 lines 295-303):
unconditional DELETE of the pair. -/
def removeFromFavorites (db : DB) (userId contentId : Nat) : DB :=
  { db with favorites :=
      db.favorites.filter (fun f => !(f.userId == userId && f.contentId == contentId)) }

/-! ## Route layer (src/server/routes.ts) -/

/-- Outcome of a request, abstracting the HTTP status codes the routes use. -/
inductive ApiResult (α : Type) where
  | ok : α → ApiResult α
  | badRequest : ApiResult α
  | notFound : ApiResult α
  | serverError : ApiResult α
  deriving Repr, DecidableEq

/-- The ensureVIP middleware (routes.ts lines 29-34): the request passes iff
it is authenticated and the session user's isVip flag is set.  No other field
of the user is consulted. -/
def ensureVIPAllows : Option User → Bool
  | some u => u.isVip
  | none => false

/-- The check inlined in GET /api/content/:id (routes.ts line 63): redact iff
the content is exclusive and the request is unauthenticated or the session
user's isVip flag is unset. -/
def contentRedacted (c : Content) (viewer : Option User) : Bool :=
  c.isExclusive && (match viewer with
    | none => true
    | some u => !u.isVip)

/-- The body returned by GET /api/content/:id: the content fields, with the
vipRequired marker present only on the redacted branch. -/
structure ContentView where
  fields : Content
  vipRequired : Option Bool
  deriving Repr, DecidableEq

/-- Response shaping of GET /api/content/:id (routes.ts lines 50-76) for a
content row that was found: on the redacted branch the source destructures
videoUrl away, spreads every remaining field, and adds videoUrl=null and
vipRequired=true; otherwise the row is returned as-is with no marker. -/
def projectContent (c : Content) (viewer : Option User) : ContentView :=
  if contentRedacted c viewer then
    { fields :=
        { id := c.id, title := c.title, description := c.description,
          type := c.type, releaseYear := c.releaseYear, genres := c.genres,
          posterUrl := c.posterUrl, backdropUrl := c.backdropUrl,
          rating := c.rating, duration := c.duration, trailerUrl := c.trailerUrl,
          isExclusive := c.isExclusive, isNew := c.isNew, seasons := c.seasons,
          videoUrl := none, castInfo := c.castInfo, director := c.director,
          studio := c.studio, maturityRating := c.maturityRating },
      vipRequired := some true }
  else { fields := c, vipRequired := none }

/-- POST /api/subscribe (routes.ts lines 308-362): validates the body (a JS
falsy planId or paymentMethod is a 400), resolves the plan (404 when unknown),
computes endDate = startDate + plan.duration days, creates the subscription
inactive, and creates a pending payment referencing it. -/
def subscribeRoute (db : DB) (now : Nat) (userId planId : Nat)
    (paymentMethod : String) (autoRenew : Bool) :
    ApiResult (DB × Subscription × Payment) :=
  if planId == 0 then ApiResult.badRequest
  else if paymentMethod == "" then ApiResult.badRequest
  else match db.plans.find? (fun pl => pl.id == planId) with
    | none => ApiResult.notFound
    | some plan =>
        let startDate := now
        let endDate := now + plan.duration
        match createSubscription db userId plan.id startDate endDate false autoRenew with
        | (db1, subscription) =>
            match createPayment db1 userId (some subscription.id) plan.price "XOF"
                paymentMethod PayStatus.pending none now with
            | (db2, payment) => ApiResult.ok (db2, subscription, payment)

/-- The storage call made by POST /api/payments/complete (routes.ts lines
364-393): the status argument is fixed to completed and the transaction id is
passed through. -/
def completePayment (db : DB) (paymentId : Nat) (transactionId : String) : Option DB :=
  updatePaymentStatus db paymentId PayStatus.completed (some transactionId)

/-- POST /api/cancel-subscription (routes.ts lines 404-417): a JS-falsy id is
a 400; otherwise the storage call runs and the route unconditionally answers
with a success message. -/
def cancelSubscriptionRoute (db : DB) (subscriptionId : Nat) : DB × ApiResult Unit :=
  if subscriptionId == 0 then (db, ApiResult.badRequest)
  else (cancelSubscription db subscriptionId, ApiResult.ok ())

/-! ## Spec-side definition, for comparison with the code -/

/-- Modelled from the spec (section 4.3): isEntitled(user) is true iff
user.isVip AND (vipExpiresAt is null OR vipExpiresAt > now).  This definition
follows the spec's words; the theorems below compare it with the gate the
routes actually implement. -/
def isEntitledSpec (now : Nat) (u : User) : Bool :=
  u.isVip && (match u.vipExpiresAt with
    | none => true
    | some e => decide (now < e))

/-! ## Field-preservation lemmas for the payment row update -/

theorem applyPaymentUpdate_id (s : PayStatus) (tx : Option String) (p : Payment) :
    (applyPaymentUpdate s tx p).id = p.id := by
  cases tx with
  | none => rfl
  | some t => simp only [applyPaymentUpdate]; split <;> rfl

theorem applyPaymentUpdate_userId (s : PayStatus) (tx : Option String) (p : Payment) :
    (applyPaymentUpdate s tx p).userId = p.userId := by
  cases tx with
  | none => rfl
  | some t => simp only [applyPaymentUpdate]; split <;> rfl

theorem applyPaymentUpdate_subscriptionId (s : PayStatus) (tx : Option String) (p : Payment) :
    (applyPaymentUpdate s tx p).subscriptionId = p.subscriptionId := by
  cases tx with
  | none => rfl
  | some t => simp only [applyPaymentUpdate]; split <;> rfl

theorem applyPaymentUpdate_status (s : PayStatus) (tx : Option String) (p : Payment) :
    (applyPaymentUpdate s tx p).status = s := by
  cases tx with
  | none => rfl
  | some t => simp only [applyPaymentUpdate]; split <;> rfl

theorem applyPaymentUpdate_idem (s : PayStatus) (tx : Option String) (p : Payment) :
    applyPaymentUpdate s tx (applyPaymentUpdate s tx p) = applyPaymentUpdate s tx p := by
  cases tx with
  | none => rfl
  | some t => simp only [applyPaymentUpdate]; split <;> rfl

/-- Whatever branch updatePaymentStatus takes on success, the payments table of
the resulting store is exactly the conditional row rewrite: the follow-up
subscription activation and VIP grant never touch the payments table. -/
theorem updatePaymentStatus_payments (db : DB) (pid : Nat) (s : PayStatus)
    (tx : Option String) (db2 : DB)
    (hres : updatePaymentStatus db pid s tx = some db2) :
    db2.payments = updateWhere (fun q => q.id == pid) (applyPaymentUpdate s tx) db.payments := by
  simp only [updatePaymentStatus] at hres
  split at hres
  · exact absurd hres (by simp)
  · split at hres
    · split at hres
      · split at hres
        · cases hres; rfl
        · cases hres; rfl
      · cases hres; rfl
    · cases hres; rfl

/-! ## Sample rows used by the concrete counterexamples and witnesses -/

def c2staleUser : User :=
  { id := 1, username := "stale", email := "stale@example.com", isAdmin := false,
    isVip := true, vipExpiresAt := some 5, preferredQuality := "auto", language := "en" }

def c2vipUser : User :=
  { id := 2, username := "vip", email := "vip@example.com", isAdmin := false,
    isVip := true, vipExpiresAt := none, preferredQuality := "auto", language := "en" }

def c3content : Content :=
  { id := 10, title := "Nebula Odyssey", description := "sci-fi adventure",
    type := ContentType.movie, releaseYear := 2023, genres := ["Sci-Fi"],
    posterUrl := "poster", backdropUrl := "backdrop", rating := some 97,
    duration := some 135, trailerUrl := none, isExclusive := true, isNew := true,
    seasons := none, videoUrl := some "X", castInfo := none, director := none,
    studio := none, maturityRating := none }

def c3staleUser : User :=
  { id := 3, username := "expired", email := "expired@example.com", isAdmin := false,
    isVip := true, vipExpiresAt := some 5, preferredQuality := "auto", language := "en" }

def c4payment : Payment :=
  { id := 1, userId := 7, subscriptionId := none, amount := 5000, currency := "XOF",
    paymentMethod := "wave", status := PayStatus.failed, transactionId := none,
    timestamp := 0 }

def c4db : DB :=
  { users := [], plans := [], subscriptions := [], payments := [c4payment],
    progressRecords := [], favorites := [], nextSubscriptionId := 1,
    nextPaymentId := 2, nextProgressId := 1 }

def c4dbAfter : DB :=
  { c4db with payments :=
      [{ c4payment with status := PayStatus.completed, transactionId := some "tx9" }] }

def c7user : User :=
  { id := 4, username := "member", email := "member@example.com", isAdmin := false,
    isVip := true, vipExpiresAt := some 100, preferredQuality := "auto", language := "en" }

def c7sub : Subscription :=
  { id := 1, userId := 4, planId := 1, startDate := 0, endDate := 30,
    isActive := true, autoRenew := true }

def c7db : DB :=
  { users := [c7user], plans := [], subscriptions := [c7sub], payments := [],
    progressRecords := [], favorites := [], nextSubscriptionId := 2,
    nextPaymentId := 1, nextProgressId := 1 }

/-! ## C2: what the VIP gate actually checks -/

/-- C2 counterexample: the claim says the gating decision is true iff isVip AND
(vipExpiresAt null or strictly future), so a user with isVip=true and
vipExpiresAt in the past must be rejected; but at time 10 the ensureVIP gate
admits the user whose vipExpiresAt is 5 even though the claimed formula is
false for them. -/
theorem c2_gate_counterexample :
    ensureVIPAllows (some c2staleUser) = true ∧ isEntitledSpec 10 c2staleUser = false :=
  ⟨rfl, rfl⟩

/-- C2 (amended): the entitlement decision gating exclusive content is the
isVip flag of an authenticated session alone: it is equivalent to the flag,
false for unauthenticated viewers, invariant under any change of vipExpiresAt
(the field is never consulted), and admits every spec-entitled user. -/
theorem c2_gate_is_isVip_flag (u : User) (e : Option Nat) (now : Nat) :
    (ensureVIPAllows (some u) = true ↔ u.isVip = true) ∧
    ensureVIPAllows none = false ∧
    ensureVIPAllows (some { u with vipExpiresAt := e }) = ensureVIPAllows (some u) ∧
    (isEntitledSpec now u = true → ensureVIPAllows (some u) = true) := by
  refine ⟨Iff.rfl, rfl, rfl, ?_⟩
  intro h
  simp only [isEntitledSpec, Bool.and_eq_true] at h
  simpa [ensureVIPAllows] using h.1

/-- Witness for c2_gate_is_isVip_flag at a concrete spec-entitled user. -/
theorem c2_gate_is_isVip_flag_witness :
    ensureVIPAllows (some c2vipUser) = true :=
  (c2_gate_is_isVip_flag c2vipUser none 0).2.2.2 rfl

/-! ## C3: the content projection -/

/-- C3 counterexample: the claim keys the redaction on entitlement (isVip AND
unexpired); at time 10 the viewer with isVip=true and vipExpiresAt=5 is not
entitled and the content is exclusive, so the claim demands videoUrl=null and
vipRequired=true, yet the projection returns the videoUrl unchanged with no
marker. -/
theorem c3_projection_counterexample :
    isEntitledSpec 10 c3staleUser = false ∧ c3content.isExclusive = true ∧
    (projectContent c3content (some c3staleUser)).fields.videoUrl = some "X" ∧
    (projectContent c3content (some c3staleUser)).vipRequired = none :=
  ⟨rfl, rfl, rfl, rfl⟩

/-- C3 (amended): with non-entitled read as the gate the code implements
(unauthenticated, or the isVip flag unset), the projection behaves as claimed:
for exclusive content and a non-admitted viewer the view carries videoUrl=null,
vipRequired=true and every other field of the content unchanged; an admitted
viewer, or non-exclusive content, gets the row back unchanged with no marker. -/
theorem c3_projection_redacts_on_flag (c : Content) (v : Option User) :
    (c.isExclusive = true → ensureVIPAllows v = false →
      (projectContent c v).fields = { c with videoUrl := none } ∧
      (projectContent c v).vipRequired = some true) ∧
    (c.isExclusive = false ∨ ensureVIPAllows v = true →
      (projectContent c v).fields = c ∧ (projectContent c v).vipRequired = none) := by
  constructor
  · intro hex hv
    have hred : contentRedacted c v = true := by
      cases v with
      | none => simp [contentRedacted, hex]
      | some u =>
          simp only [ensureVIPAllows] at hv
          simp [contentRedacted, hex, hv]
    constructor <;> simp [projectContent, hred]
  · intro h
    have hred : contentRedacted c v = false := by
      rcases h with hex | hv
      · simp [contentRedacted, hex]
      · cases v with
        | none => simp only [ensureVIPAllows] at hv; cases hv
        | some u =>
            simp only [ensureVIPAllows] at hv
            simp [contentRedacted, hv]
    constructor <;> simp [projectContent, hred]

/-- Witness for c3_projection_redacts_on_flag: an unauthenticated viewer of the
exclusive sample content gets the redacted view. -/
theorem c3_projection_redacts_on_flag_witness :
    (projectContent c3content none).fields = { c3content with videoUrl := none } ∧
    (projectContent c3content none).vipRequired = some true :=
  (c3_projection_redacts_on_flag c3content none).1 rfl rfl

/-! ## C4: payment status transitions -/

/-- C4 counterexample: a payment whose status is failed becomes completed
again: the claim forbids any transition out of failed, but updatePaymentStatus
applies the requested status unconditionally. -/
theorem c4_failed_becomes_completed :
    c4payment.status = PayStatus.failed ∧
    (updatePaymentStatus c4db 1 PayStatus.completed (some "tx9")).bind
        (fun d => d.findPayment 1) =
      some { c4payment with status := PayStatus.completed, transactionId := some "tx9" } :=
  ⟨rfl, rfl⟩

/-- C4 (amended): updatePaymentStatus enforces no transition discipline: for
every stored payment and every requested status, a successful call rewrites the
row to carry the requested status (recording the transaction id when a
non-empty one is given), whatever the previous status was. -/
theorem c4_no_transition_guard (db : DB) (pid : Nat) (s : PayStatus)
    (tx : Option String) (p : Payment) (db2 : DB)
    (hp : db.findPayment pid = some p)
    (hres : updatePaymentStatus db pid s tx = some db2) :
    db2.findPayment pid = some (applyPaymentUpdate s tx p) ∧
    (applyPaymentUpdate s tx p).status = s := by
  have hpay := updatePaymentStatus_payments db pid s tx db2 hres
  have hq : ∀ q : Payment, ((applyPaymentUpdate s tx q).id == pid) = (q.id == pid) := by
    intro q; rw [applyPaymentUpdate_id]
  refine ⟨?_, applyPaymentUpdate_status s tx p⟩
  simp only [DB.findPayment] at hp ⊢
  rw [hpay, find?_updateWhere hq db.payments, hp]
  have hpid := List.find?_some hp
  simp only [Option.map_some']
  rw [if_pos hpid]

/-- Witness for c4_no_transition_guard at the concrete failed payment. -/
theorem c4_no_transition_guard_witness :
    c4dbAfter.findPayment 1 =
      some (applyPaymentUpdate PayStatus.completed (some "tx9") c4payment) ∧
    (applyPaymentUpdate PayStatus.completed (some "tx9") c4payment).status =
      PayStatus.completed :=
  c4_no_transition_guard c4db 1 PayStatus.completed (some "tx9") c4payment c4dbAfter rfl rfl

/-! ## C7: cancelling an unknown subscription id -/

/-- C7 counterexample: subscription id 5 is unknown to the store, yet the
cancel route answers with the success message and an unchanged store instead of
the NotFound failure the claim requires. -/
theorem c7_unknown_cancel_reports_success :
    c7db.findSubscription 5 = none ∧
    cancelSubscriptionRoute c7db 5 = (c7db, ApiResult.ok ()) :=
  ⟨rfl, rfl⟩

/-- C7 (amended): cancelling an unknown subscription id is a silent no-op: the
storage call returns the store untouched (so every subscription row and every
user VIP field is unchanged), and for any non-zero id the route still answers
with the success message, not a NotFound failure. -/
theorem c7_cancel_unknown_is_noop (db : DB) (sid : Nat)
    (h : db.findSubscription sid = none) :
    cancelSubscription db sid = db ∧
    (sid ≠ 0 → cancelSubscriptionRoute db sid = (db, ApiResult.ok ())) := by
  simp only [DB.findSubscription] at h
  have h1 : cancelSubscription db sid = db := by
    simp [cancelSubscription, h]
  refine ⟨h1, fun hz => ?_⟩
  simp [cancelSubscriptionRoute, hz, h1]

/-- Witness for c7_cancel_unknown_is_noop at the concrete store. -/
theorem c7_cancel_unknown_is_noop_witness :
    cancelSubscription c7db 5 = c7db ∧
    cancelSubscriptionRoute c7db 5 = (c7db, ApiResult.ok ()) := by
  have h := c7_cancel_unknown_is_noop c7db 5 rfl
  exact ⟨h.1, h.2 (by decide)⟩

/-! ## Lookup lemmas for the concrete row updates -/

theorem find?_updateVip (l : List User) (uid k : Nat) (b : Bool) (e : Option Nat) :
    (updateWhere (fun u => u.id == uid)
        (fun u => { u with isVip := b, vipExpiresAt := e }) l).find?
        (fun u => u.id == k) =
      Option.map
        (fun u => if u.id == uid then { u with isVip := b, vipExpiresAt := e } else u)
        (l.find? (fun u => u.id == k)) :=
  @find?_updateWhere User (fun u => u.id == uid)
    (fun u => { u with isVip := b, vipExpiresAt := e })
    (fun u => u.id == k) (fun _ => rfl) l

theorem find?_deactivateSub (l : List Subscription) (sid k : Nat) :
    (updateWhere (fun s => s.id == sid)
        (fun s => { s with isActive := false, autoRenew := false }) l).find?
        (fun s => s.id == k) =
      Option.map
        (fun s => if s.id == sid then { s with isActive := false, autoRenew := false } else s)
        (l.find? (fun s => s.id == k)) :=
  @find?_updateWhere Subscription (fun s => s.id == sid)
    (fun s => { s with isActive := false, autoRenew := false })
    (fun s => s.id == k) (fun _ => rfl) l

theorem find?_activateSub (l : List Subscription) (sid k : Nat) :
    (updateWhere (fun s => s.id == sid)
        (fun s => { s with isActive := true }) l).find? (fun s => s.id == k) =
      Option.map (fun s => if s.id == sid then { s with isActive := true } else s)
        (l.find? (fun s => s.id == k)) :=
  @find?_updateWhere Subscription (fun s => s.id == sid)
    (fun s => { s with isActive := true })
    (fun s => s.id == k) (fun _ => rfl) l

/-! ## C5: cancellation is immediate -/

def c5sub : Subscription :=
  { id := 1, userId := 7, planId := 1, startDate := 0, endDate := 30,
    isActive := true, autoRenew := true }

def c5user : User :=
  { id := 7, username := "u7", email := "u7@example.com", isAdmin := false,
    isVip := true, vipExpiresAt := some 30, preferredQuality := "auto", language := "en" }

def c5db : DB :=
  { users := [c5user], plans := [], subscriptions := [c5sub], payments := [],
    progressRecords := [], favorites := [], nextSubscriptionId := 2,
    nextPaymentId := 1, nextProgressId := 1 }

/-- C5: cancelling an existing subscription, whatever its endDate, immediately
leaves the subscription row with isActive=false and autoRenew=false and the
owning user with isVip=false (and a cleared expiry date): no grace period until
endDate. -/
theorem c5_cancel_immediate (db : DB) (sid : Nat) (S : Subscription) (u : User)
    (hS : db.findSubscription sid = some S)
    (hu : db.findUser S.userId = some u) :
    (cancelSubscription db sid).findSubscription sid =
      some { S with isActive := false, autoRenew := false } ∧
    (cancelSubscription db sid).findUser S.userId =
      some { u with isVip := false, vipExpiresAt := none } := by
  simp only [DB.findSubscription] at hS
  simp only [DB.findUser] at hu
  have hSid := List.find?_some hS
  have huid := List.find?_some hu
  simp only [cancelSubscription, hS]
  constructor
  · simp only [updateUserVipStatus, DB.findSubscription]
    rw [find?_deactivateSub db.subscriptions sid sid, hS]
    simp only [Option.map_some']
    rw [if_pos hSid]
  · simp only [updateUserVipStatus, DB.findUser]
    rw [find?_updateVip db.users S.userId S.userId false none, hu]
    simp only [Option.map_some']
    rw [if_pos huid]

/-- Witness for c5_cancel_immediate at the concrete store. -/
theorem c5_cancel_immediate_witness :
    (cancelSubscription c5db 1).findSubscription 1 =
      some { c5sub with isActive := false, autoRenew := false } ∧
    (cancelSubscription c5db 1).findUser c5sub.userId =
      some { c5user with isVip := false, vipExpiresAt := none } :=
  c5_cancel_immediate c5db 1 c5sub c5user rfl rfl

/-! ## C10: cancelling a stale, inactive subscription still revokes VIP -/

def c10stale : Subscription :=
  { id := 1, userId := 8, planId := 1, startDate := 0, endDate := 10,
    isActive := false, autoRenew := false }

def c10active : Subscription :=
  { id := 2, userId := 8, planId := 2, startDate := 5, endDate := 60,
    isActive := true, autoRenew := true }

def c10user : User :=
  { id := 8, username := "u8", email := "u8@example.com", isAdmin := false,
    isVip := true, vipExpiresAt := some 60, preferredQuality := "auto", language := "en" }

def c10db : DB :=
  { users := [c10user], plans := [], subscriptions := [c10stale, c10active],
    payments := [], progressRecords := [], favorites := [], nextSubscriptionId := 3,
    nextPaymentId := 1, nextProgressId := 1 }

/-- C10: cancelSubscription has no guard on the subscription being active:
cancelling an already-inactive subscription still sets the owning user's
isVip=false and vipExpiresAt=null, while a different, still-active subscription
of the same user remains stored active - so the user loses VIP access held
through that other subscription. -/
theorem c10_cancel_stale_revokes (db : DB) (sid sid2 : Nat)
    (S S2 : Subscription) (u : User)
    (hS : db.findSubscription sid = some S)
    (hinactive : S.isActive = false)
    (hu : db.findUser S.userId = some u)
    (hvip : u.isVip = true)
    (hS2 : db.findSubscription sid2 = some S2)
    (hne : sid2 ≠ sid)
    (hactive : S2.isActive = true) :
    (cancelSubscription db sid).findUser S.userId =
      some { u with isVip := false, vipExpiresAt := none } ∧
    (cancelSubscription db sid).findSubscription sid2 = some S2 := by
  simp only [DB.findSubscription] at hS hS2
  simp only [DB.findUser] at hu
  have huid := List.find?_some hu
  have hS2id : S2.id = sid2 := by simpa using List.find?_some hS2
  simp only [cancelSubscription, hS]
  constructor
  · simp only [updateUserVipStatus, DB.findUser]
    rw [find?_updateVip db.users S.userId S.userId false none, hu]
    simp only [Option.map_some']
    rw [if_pos huid]
  · simp only [updateUserVipStatus, DB.findSubscription]
    rw [find?_deactivateSub db.subscriptions sid sid2, hS2]
    simp only [Option.map_some']
    rw [if_neg]
    simp [hS2id, hne]

/-- Witness for c10_cancel_stale_revokes at the concrete store with one stale
and one active subscription for the same user. -/
theorem c10_cancel_stale_revokes_witness :
    (cancelSubscription c10db 1).findUser c10stale.userId =
      some { c10user with isVip := false, vipExpiresAt := none } ∧
    (cancelSubscription c10db 1).findSubscription 2 = some c10active :=
  c10_cancel_stale_revokes c10db 1 2 c10stale c10active c10user rfl rfl rfl rfl rfl
    (by decide) rfl

/-! ## Branch lemmas for the progress upsert and the favorites insert -/

theorem saveUserProgress_insert (db : DB) (now : Nat) (d : InsertProgress)
    (h : db.progressRecords.find?
        (fun r => r.userId == d.userId && r.contentId == d.contentId) = none) :
    saveUserProgress db now d =
      { db with
        progressRecords := db.progressRecords ++ [freshProgressRecord db d now],
        nextProgressId := db.nextProgressId + 1 } := by
  simp [saveUserProgress, h]

theorem saveUserProgress_update (db : DB) (now : Nat) (d : InsertProgress)
    (ex : ProgressRecord)
    (h : db.progressRecords.find?
        (fun r => r.userId == d.userId && r.contentId == d.contentId) = some ex) :
    saveUserProgress db now d =
      { db with progressRecords :=
        (updateWhere (fun r => r.id == ex.id) (applyProgressUpdate d now)
          db.progressRecords) } := by
  simp [saveUserProgress, h]

theorem addToFavorites_present (db : DB) (t u c : Nat) (f : Favorite)
    (h : db.favorites.find? (fun x => x.userId == u && x.contentId == c) = some f) :
    addToFavorites db t u c = db := by
  simp [addToFavorites, h]

theorem foldl_addToFavorites_present (ts : List Nat) (db : DB) (u c : Nat)
    (h : (db.favorites.find? (fun x => x.userId == u && x.contentId == c)).isSome = true) :
    ts.foldl (fun s t => addToFavorites s t u c) db = db := by
  induction ts generalizing db with
  | nil => rfl
  | cons t ts ih =>
      obtain ⟨f, hf⟩ := Option.isSome_iff_exists.mp h
      simp only [List.foldl_cons, addToFavorites_present db t u c f hf]
      exact ih db h

/-! ## C8: progress upsert, last write wins -/

/-- The payload of the first save in the C8 scenario: progress 40, no optional
fields. -/
def c8d40 (u c : Nat) : InsertProgress :=
  { userId := u, contentId := c, progress := 40, currentEpisode := none,
    currentSeason := none, timeRemaining := none }

/-- The payload of the second save in the C8 scenario: progress 70, no
optional fields. -/
def c8d70 (u c : Nat) : InsertProgress :=
  { userId := u, contentId := c, progress := 70, currentEpisode := none,
    currentSeason := none, timeRemaining := none }

/-- C8: saving progress 40 and then progress 70 for a (user, content) pair
with no stored record yet ends with exactly one stored record for the pair,
carrying progress 70 and the timestamp of the second write: the second save
overwrites the row inserted by the first instead of adding a second row. -/
theorem c8_progress_last_write_wins (db : DB) (u c t1 t2 : Nat)
    (hpair : db.progressRecords.filter
        (fun r => r.userId == u && r.contentId == c) = [])
    (hfresh : ∀ r ∈ db.progressRecords, r.id ≠ db.nextProgressId) :
    (saveUserProgress (saveUserProgress db t1 (c8d40 u c)) t2
        (c8d70 u c)).progressRecords.filter
        (fun r => r.userId == u && r.contentId == c) =
      [{ id := db.nextProgressId, userId := u, contentId := c, progress := 70,
         timestamp := t2, currentEpisode := none, currentSeason := none,
         timeRemaining := none }] := by
  have hall := all_false_of_filter_eq_nil hpair
  have h1 : saveUserProgress db t1 (c8d40 u c) =
      { db with
        progressRecords := db.progressRecords ++ [freshProgressRecord db (c8d40 u c) t1],
        nextProgressId := db.nextProgressId + 1 } :=
    saveUserProgress_insert db t1 (c8d40 u c) (find?_eq_none_of_all hall)
  rw [h1]
  have h2 : (db.progressRecords ++ [freshProgressRecord db (c8d40 u c) t1]).find?
      (fun r => r.userId == u && r.contentId == c) =
      some (freshProgressRecord db (c8d40 u c) t1) := by
    rw [find?_append_of_all_false hall]
    simp [freshProgressRecord, c8d40, List.find?]
  have h3 := saveUserProgress_update
    { db with
      progressRecords := db.progressRecords ++ [freshProgressRecord db (c8d40 u c) t1],
      nextProgressId := db.nextProgressId + 1 }
    t2 (c8d70 u c) (freshProgressRecord db (c8d40 u c) t1) h2
  rw [h3]
  have hfr : ∀ r ∈ db.progressRecords,
      (r.id == (freshProgressRecord db (c8d40 u c) t1).id) = false := by
    intro r hr
    simp [freshProgressRecord, hfresh r hr]
  show (updateWhere (fun r => r.id == (freshProgressRecord db (c8d40 u c) t1).id)
      (applyProgressUpdate (c8d70 u c) t2)
      (db.progressRecords ++ [freshProgressRecord db (c8d40 u c) t1])).filter
      (fun r => r.userId == u && r.contentId == c) = _
  rw [updateWhere_append, updateWhere_eq_self hfr]
  simp only [updateWhere]
  rw [if_pos (by simp)]
  rw [List.filter_append, hpair]
  simp [applyProgressUpdate, freshProgressRecord, c8d40, c8d70]

/-- Witness for c8_progress_last_write_wins on an empty store. -/
def c8db : DB :=
  { users := [], plans := [], subscriptions := [], payments := [],
    progressRecords := [], favorites := [], nextSubscriptionId := 1,
    nextPaymentId := 1, nextProgressId := 9 }

theorem c8_progress_last_write_wins_witness :
    (saveUserProgress (saveUserProgress c8db 100 (c8d40 1 2)) 200
        (c8d70 1 2)).progressRecords.filter
        (fun r => r.userId == 1 && r.contentId == 2) =
      [{ id := 9, userId := 1, contentId := 2, progress := 70, timestamp := 200,
         currentEpisode := none, currentSeason := none, timeRemaining := none }] :=
  c8_progress_last_write_wins c8db 1 2 100 200 rfl (by simp [c8db])

/-! ## C9: favorites add is idempotent -/

def c9db : DB :=
  { users := [], plans := [], subscriptions := [], payments := [],
    progressRecords := [], favorites := [], nextSubscriptionId := 1,
    nextPaymentId := 1, nextProgressId := 1 }

/-- C9: for a (user, content) pair with no favorite row yet, the first add
stores exactly one row for the pair with addedAt equal to the time of that
first call, and every later add (any number of them, at any times) is a no-op
that leaves the store - including that addedAt - unchanged. -/
theorem c9_favorites_add_idempotent (db : DB) (u c t1 : Nat) (ts : List Nat)
    (habsent : db.favorites.filter (fun f => f.userId == u && f.contentId == c) = []) :
    ((addToFavorites db t1 u c).favorites.filter
        (fun f => f.userId == u && f.contentId == c) =
      [{ userId := u, contentId := c, addedAt := t1 }]) ∧
    ts.foldl (fun s t => addToFavorites s t u c) (addToFavorites db t1 u c) =
      addToFavorites db t1 u c := by
  have hall := all_false_of_filter_eq_nil habsent
  have hfind : db.favorites.find? (fun f => f.userId == u && f.contentId == c) = none :=
    find?_eq_none_of_all hall
  have h1 : addToFavorites db t1 u c =
      { db with favorites :=
          db.favorites ++ [{ userId := u, contentId := c, addedAt := t1 }] } := by
    simp [addToFavorites, hfind]
  constructor
  · rw [h1]
    show (db.favorites ++ [({ userId := u, contentId := c, addedAt := t1 } : Favorite)]).filter
        (fun f => f.userId == u && f.contentId == c) = _
    rw [List.filter_append, habsent]
    simp
  · apply foldl_addToFavorites_present
    rw [h1]
    show ((db.favorites ++ [({ userId := u, contentId := c, addedAt := t1 } : Favorite)]).find?
        (fun f => f.userId == u && f.contentId == c)).isSome = true
    rw [find?_append_of_all_false hall]
    simp [List.find?]

/-- Witness for c9_favorites_add_idempotent: one add at time 5, then two more
adds at times 6 and 7. -/
theorem c9_favorites_add_idempotent_witness :
    ((addToFavorites c9db 5 3 4).favorites.filter
        (fun f => f.userId == 3 && f.contentId == 4) =
      [{ userId := 3, contentId := 4, addedAt := 5 }]) ∧
    [6, 7].foldl (fun s t => addToFavorites s t 3 4) (addToFavorites c9db 5 3 4) =
      addToFavorites c9db 5 3 4 :=
  c9_favorites_add_idempotent c9db 3 4 5 [6, 7] rfl

/-! ## C1: payment completion activates the subscription and grants VIP -/

theorem beq_false_of_ne {a b : Nat} (h : a ≠ b) : (a == b) = false := by
  simp [h]

/-- Completing a freshly inserted pending payment that references a freshly
inserted subscription: the payment row becomes completed with the transaction
id recorded, the subscription row becomes active, and the owning user is
granted VIP until the subscription's endDate. -/
theorem updatePaymentStatus_fresh_linked (db : DB) (P : Payment) (Sb : Subscription)
    (tx : String)
    (hfp : ∀ p ∈ db.payments, (p.id == P.id) = false)
    (hfs : ∀ s ∈ db.subscriptions, (s.id == Sb.id) = false)
    (hPsub : P.subscriptionId = some Sb.id)
    (htx : (tx == "") = false) :
    updatePaymentStatus
      { db with
        subscriptions := db.subscriptions ++ [Sb],
        payments := db.payments ++ [P],
        nextSubscriptionId := db.nextSubscriptionId + 1,
        nextPaymentId := db.nextPaymentId + 1 }
      P.id PayStatus.completed (some tx) =
    some { db with
      users := (updateWhere (fun x => x.id == P.userId)
        (fun x => { x with isVip := true, vipExpiresAt := some Sb.endDate }) db.users),
      subscriptions := db.subscriptions ++ [{ Sb with isActive := true }],
      payments := db.payments ++
        [{ P with status := PayStatus.completed, transactionId := some tx }],
      nextSubscriptionId := db.nextSubscriptionId + 1,
      nextPaymentId := db.nextPaymentId + 1 } := by
  have hup : updateWhere (fun p => p.id == P.id)
      (applyPaymentUpdate PayStatus.completed (some tx)) (db.payments ++ [P]) =
      db.payments ++ [{ P with status := PayStatus.completed, transactionId := some tx }] := by
    rw [updateWhere_append, updateWhere_eq_self hfp]
    simp [updateWhere, applyPaymentUpdate, htx]
  have hfind : (db.payments ++
      [{ P with status := PayStatus.completed, transactionId := some tx }]).find?
      (fun p => p.id == P.id) =
      some { P with status := PayStatus.completed, transactionId := some tx } := by
    rw [find?_append_of_all_false hfp]
    simp [List.find?]
  have hsubfind : (db.subscriptions ++ [Sb]).find? (fun s => s.id == Sb.id) = some Sb := by
    rw [find?_append_of_all_false hfs]
    simp [List.find?]
  have hact : updateWhere (fun s => s.id == Sb.id) (fun s => { s with isActive := true })
      (db.subscriptions ++ [Sb]) = db.subscriptions ++ [{ Sb with isActive := true }] := by
    rw [updateWhere_append, updateWhere_eq_self hfs]
    simp [updateWhere]
  simp only [updatePaymentStatus]
  rw [hup, hfind]
  dsimp only
  rw [hPsub]
  simp only [beq_self_eq_true, if_true]
  rw [hsubfind]
  dsimp only
  rw [hact]
  simp only [updateUserVipStatus]

/-- C1: subscribing produces an inactive subscription S and a pending payment
Pay referencing it; completing Pay then activates S, sets the user's isVip
flag, and sets vipExpiresAt to S.endDate. -/
theorem c1_complete_payment_activates (db : DB) (now uid planId : Nat)
    (method : String) (autoRenew : Bool) (db2 : DB) (S : Subscription)
    (Pay : Payment) (u : User)
    (hu : db.findUser uid = some u)
    (hfreshS : ∀ s ∈ db.subscriptions, s.id ≠ db.nextSubscriptionId)
    (hfreshP : ∀ p ∈ db.payments, p.id ≠ db.nextPaymentId)
    (hsub : subscribeRoute db now uid planId method autoRenew =
      ApiResult.ok (db2, S, Pay)) :
    S.isActive = false ∧ Pay.status = PayStatus.pending ∧
    ∃ db3, completePayment db2 Pay.id "tx1" = some db3 ∧
      db3.findSubscription S.id = some { S with isActive := true } ∧
      db3.findUser uid = some { u with isVip := true, vipExpiresAt := some S.endDate } := by
  simp only [subscribeRoute] at hsub
  split at hsub
  next => cases hsub
  next =>
    split at hsub
    next => cases hsub
    next =>
      split at hsub
      next => cases hsub
      next plan hplan =>
        simp only [createSubscription, createPayment] at hsub
        simp only [Bool.false_eq_true, if_false, ApiResult.ok.injEq, Prod.mk.injEq] at hsub
        obtain ⟨h1, h2, h3⟩ := hsub
        subst h1
        subst h2
        subst h3
        refine ⟨rfl, rfl, ?_⟩
        have hfp : ∀ p ∈ db.payments, (p.id == db.nextPaymentId) = false :=
          fun p hp => beq_false_of_ne (hfreshP p hp)
        have hfs : ∀ s ∈ db.subscriptions, (s.id == db.nextSubscriptionId) = false :=
          fun s hs => beq_false_of_ne (hfreshS s hs)
        refine ⟨_, updatePaymentStatus_fresh_linked db
          { id := db.nextPaymentId, userId := uid,
            subscriptionId := some db.nextSubscriptionId, amount := plan.price,
            currency := "XOF", paymentMethod := method, status := PayStatus.pending,
            transactionId := none, timestamp := now }
          { id := db.nextSubscriptionId, userId := uid, planId := plan.id,
            startDate := now, endDate := now + plan.duration, isActive := false,
            autoRenew := autoRenew }
          "tx1" hfp hfs rfl rfl, ?_, ?_⟩
        · simp only [DB.findSubscription]
          rw [find?_append_of_all_false hfs]
          simp [List.find?]
        · simp only [DB.findUser] at hu ⊢
          rw [find?_updateVip db.users uid uid true (some (now + plan.duration)), hu]
          simp only [Option.map_some']
          rw [if_pos (List.find?_some hu)]

/-- Witness data for c1: one non-VIP user and one plan in the store. -/
def c1user : User :=
  { id := 7, username := "buyer", email := "buyer@example.com", isAdmin := false,
    isVip := false, vipExpiresAt := none, preferredQuality := "auto", language := "en" }

def c1plan : SubscriptionPlan :=
  { id := 1, name := "Standard VIP", price := 5000, duration := 30,
    quality := "HD", description := "monthly plan" }

def c1db : DB :=
  { users := [c1user], plans := [c1plan], subscriptions := [], payments := [],
    progressRecords := [], favorites := [], nextSubscriptionId := 3,
    nextPaymentId := 4, nextProgressId := 1 }

def c1S : Subscription :=
  { id := 3, userId := 7, planId := 1, startDate := 0, endDate := 30,
    isActive := false, autoRenew := false }

def c1Pay : Payment :=
  { id := 4, userId := 7, subscriptionId := some 3, amount := 5000,
    currency := "XOF", paymentMethod := "wave", status := PayStatus.pending,
    transactionId := none, timestamp := 0 }

def c1db2 : DB :=
  { c1db with
    subscriptions := [c1S], payments := [c1Pay],
    nextSubscriptionId := 4, nextPaymentId := 5 }

/-- Witness for c1_complete_payment_activates on the concrete store. -/
theorem c1_complete_payment_activates_witness :
    c1S.isActive = false ∧ c1Pay.status = PayStatus.pending ∧
    ∃ db3, completePayment c1db2 c1Pay.id "tx1" = some db3 ∧
      db3.findSubscription c1S.id = some { c1S with isActive := true } ∧
      db3.findUser 7 = some { c1user with isVip := true, vipExpiresAt := some c1S.endDate } :=
  c1_complete_payment_activates c1db 0 7 1 "wave" false c1db2 c1S c1Pay c1user rfl
    (fun s hs => absurd hs (by simp [c1db])) (fun p hp => absurd hp (by simp [c1db]))
    (by decide)

/-! ## C6: completing a payment twice equals completing it once -/

/-- C6: for every store holding the payment, completing it succeeds, and
running the very same completion again on the resulting store returns that
store unchanged: the repeat call rewrites the payment row to the values it
already has, re-activates the already-active subscription, and re-grants the
identical VIP fields, so no payment, subscription or user field differs.
(The updatedAt key the source also writes has no column in the payments table
and is dropped by the ORM, so it does not reappear here.) -/
theorem c6_complete_payment_idempotent (db : DB) (pid : Nat) (tx : String) (p : Payment)
    (hp : db.findPayment pid = some p) :
    ∃ db1, completePayment db pid tx = some db1 ∧
      completePayment db1 pid tx = some db1 := by
  simp only [DB.findPayment] at hp
  have hpid := List.find?_some hp
  have hgf : ∀ x : Payment,
      ((applyPaymentUpdate PayStatus.completed (some tx) x).id == pid) = (x.id == pid) := by
    intro x; rw [applyPaymentUpdate_id]
  have hidem := @updateWhere_idem Payment (fun q => q.id == pid)
    (applyPaymentUpdate PayStatus.completed (some tx)) hgf
    (fun x _ => applyPaymentUpdate_idem PayStatus.completed (some tx) x) db.payments
  have hfind1 : (updateWhere (fun q => q.id == pid)
      (applyPaymentUpdate PayStatus.completed (some tx)) db.payments).find?
      (fun q => q.id == pid) =
      some (applyPaymentUpdate PayStatus.completed (some tx) p) := by
    rw [find?_updateWhere hgf db.payments, hp]
    simp only [Option.map_some']
    rw [if_pos hpid]
  cases hsubid : (applyPaymentUpdate PayStatus.completed (some tx) p).subscriptionId with
  | none =>
      have hstep1 : completePayment db pid tx = some { db with
          payments := (updateWhere (fun q => q.id == pid)
            (applyPaymentUpdate PayStatus.completed (some tx)) db.payments) } := by
        simp only [completePayment, updatePaymentStatus]
        rw [hfind1]
        dsimp only
        simp only [beq_self_eq_true, if_true]
        rw [hsubid]
      have hstep2 : completePayment { db with
          payments := (updateWhere (fun q => q.id == pid)
            (applyPaymentUpdate PayStatus.completed (some tx)) db.payments) } pid tx =
          some { db with
          payments := (updateWhere (fun q => q.id == pid)
            (applyPaymentUpdate PayStatus.completed (some tx)) db.payments) } := by
        simp only [completePayment, updatePaymentStatus]
        rw [hidem, hfind1]
        dsimp only
        simp only [beq_self_eq_true, if_true]
        rw [hsubid]
      exact ⟨_, hstep1, hstep2⟩
  | some sid =>
      cases hs : db.subscriptions.find? (fun s => s.id == sid) with
      | none =>
          have hstep1 : completePayment db pid tx = some { db with
              payments := (updateWhere (fun q => q.id == pid)
                (applyPaymentUpdate PayStatus.completed (some tx)) db.payments) } := by
            simp only [completePayment, updatePaymentStatus]
            rw [hfind1]
            dsimp only
            simp only [beq_self_eq_true, if_true]
            rw [hsubid]
            dsimp only
            rw [hs]
          have hstep2 : completePayment { db with
              payments := (updateWhere (fun q => q.id == pid)
                (applyPaymentUpdate PayStatus.completed (some tx)) db.payments) } pid tx =
              some { db with
              payments := (updateWhere (fun q => q.id == pid)
                (applyPaymentUpdate PayStatus.completed (some tx)) db.payments) } := by
            simp only [completePayment, updatePaymentStatus]
            rw [hidem, hfind1]
            dsimp only
            simp only [beq_self_eq_true, if_true]
            rw [hsubid]
            dsimp only
            rw [hs]
          exact ⟨_, hstep1, hstep2⟩
      | some Sb =>
          have hfs2 : (updateWhere (fun s => s.id == sid)
              (fun s => { s with isActive := true }) db.subscriptions).find?
              (fun s => s.id == sid) = some { Sb with isActive := true } := by
            rw [find?_activateSub db.subscriptions sid sid, hs]
            simp only [Option.map_some']
            rw [if_pos (List.find?_some hs)]
          have hsubidem := @updateWhere_idem Subscription (fun s => s.id == sid)
            (fun s => { s with isActive := true }) (fun _ => rfl) (fun _ _ => rfl)
            db.subscriptions
          have huseridem := @updateWhere_idem User
            (fun x => x.id == (applyPaymentUpdate PayStatus.completed (some tx) p).userId)
            (fun x => { x with isVip := true, vipExpiresAt := some Sb.endDate })
            (fun _ => rfl) (fun _ _ => rfl) db.users
          have hstep1 : completePayment db pid tx = some { db with
              users := (updateWhere
                (fun x => x.id == (applyPaymentUpdate PayStatus.completed (some tx) p).userId)
                (fun x => { x with isVip := true, vipExpiresAt := some Sb.endDate }) db.users),
              subscriptions := (updateWhere (fun s => s.id == sid)
                (fun s => { s with isActive := true }) db.subscriptions),
              payments := (updateWhere (fun q => q.id == pid)
                (applyPaymentUpdate PayStatus.completed (some tx)) db.payments) } := by
            simp only [completePayment, updatePaymentStatus]
            rw [hfind1]
            dsimp only
            simp only [beq_self_eq_true, if_true]
            rw [hsubid]
            dsimp only
            rw [hs]
            dsimp only
            simp only [updateUserVipStatus]
          have hstep2 : completePayment { db with
              users := (updateWhere
                (fun x => x.id == (applyPaymentUpdate PayStatus.completed (some tx) p).userId)
                (fun x => { x with isVip := true, vipExpiresAt := some Sb.endDate }) db.users),
              subscriptions := (updateWhere (fun s => s.id == sid)
                (fun s => { s with isActive := true }) db.subscriptions),
              payments := (updateWhere (fun q => q.id == pid)
                (applyPaymentUpdate PayStatus.completed (some tx)) db.payments) } pid tx =
              some { db with
              users := (updateWhere
                (fun x => x.id == (applyPaymentUpdate PayStatus.completed (some tx) p).userId)
                (fun x => { x with isVip := true, vipExpiresAt := some Sb.endDate }) db.users),
              subscriptions := (updateWhere (fun s => s.id == sid)
                (fun s => { s with isActive := true }) db.subscriptions),
              payments := (updateWhere (fun q => q.id == pid)
                (applyPaymentUpdate PayStatus.completed (some tx)) db.payments) } := by
            simp only [completePayment, updatePaymentStatus, updateUserVipStatus]
            rw [hidem, hfind1]
            dsimp only
            simp only [beq_self_eq_true, if_true]
            rw [hsubid]
            dsimp only
            rw [hfs2]
            dsimp only
            rw [hsubidem, huseridem]
          exact ⟨_, hstep1, hstep2⟩

/-- Witness data for c6: a pending payment referencing an inactive
subscription of a non-VIP user. -/
def c6user : User :=
  { id := 7, username := "payer", email := "payer@example.com", isAdmin := false,
    isVip := false, vipExpiresAt := none, preferredQuality := "auto", language := "en" }

def c6sub : Subscription :=
  { id := 2, userId := 7, planId := 1, startDate := 0, endDate := 30,
    isActive := false, autoRenew := false }

def c6pay : Payment :=
  { id := 1, userId := 7, subscriptionId := some 2, amount := 5000,
    currency := "XOF", paymentMethod := "wave", status := PayStatus.pending,
    transactionId := none, timestamp := 0 }

def c6db : DB :=
  { users := [c6user], plans := [], subscriptions := [c6sub], payments := [c6pay],
    progressRecords := [], favorites := [], nextSubscriptionId := 3,
    nextPaymentId := 2, nextProgressId := 1 }

/-- Witness for c6_complete_payment_idempotent on the concrete store. -/
theorem c6_complete_payment_idempotent_witness :
    ∃ db1, completePayment c6db 1 "tx1" = some db1 ∧
      completePayment db1 1 "tx1" = some db1 :=
  c6_complete_payment_idempotent c6db 1 "tx1" c6pay rfl

end StreamFlow
